import Mathlib

/-!
Shallow embedding of py_grpc_prometheus/prometheus_server_interceptor.py.

The interceptor wraps a gRPC server handler so that metric increments and
histogram observations are emitted at fixed lifecycle points.  We embed the
observable behaviour of one intercepted call as a trace: the ordered list of
metric events the code performs, together with the call outcome (returned,
raised RPC error, raised non-RPC fault).

Metric objects imported from server_metrics are represented by constructors of
the Counter and Hist types; the grpc_utils counting-iterator adapter is not
part of src and is modelled from the spec (section 4.2).
-/

namespace PyGrpcPrometheus

/-- Status codes of grpc.StatusCode used by the interceptor and its tests. -/
inductive StatusCode
  | OK
  | CANCELLED
  | UNKNOWN
  | NOT_FOUND
  | INVALID_ARGUMENT
  | INTERNAL
  deriving DecidableEq, Repr

/-- The .name attribute of a grpc.StatusCode member. -/
def StatusCode.name : StatusCode → String
  | .OK => "OK"
  | .CANCELLED => "CANCELLED"
  | .UNKNOWN => "UNKNOWN"
  | .NOT_FOUND => "NOT_FOUND"
  | .INVALID_ARGUMENT => "INVALID_ARGUMENT"
  | .INTERNAL => "INTERNAL"

/-- The counters of server_metrics touched by the interceptor.  Default-family
counters mirror GRPC_SERVER_*, legacy-family counters mirror LEGACY_GRPC_*.
The handled counters carry the code label string passed to .labels(). -/
inductive Counter
  | startedDefault
  | startedLegacy
  | handledDefault (code : String)
  | handledLegacy (code : String)
  | msgReceivedDefault
  | msgReceivedLegacy
  | msgSentDefault
  | msgSentLegacy
  deriving DecidableEq, Repr

/-- The two latency instruments: GRPC_SERVER_HANDLED_HISTOGRAM and
LEGACY_GRPC_SERVER_HANDLED_LATENCY_SECONDS. -/
inductive Hist
  | handledHistogram
  | legacyLatency
  deriving DecidableEq, Repr

/-- One metric side effect: a counter .inc() or a histogram .observe(v).
Elapsed times are modelled as integers (seconds scaled arbitrarily). -/
inductive Event
  | inc (c : Counter)
  | obs (h : Hist) (v : Int)
  deriving DecidableEq, Repr

/-- The two metric families of the spec. -/
inductive Family
  | legacyFam
  | defaultFam
  deriving DecidableEq, Repr

/-- Which family a counter belongs to. -/
def Counter.family : Counter → Family
  | .startedDefault => .defaultFam
  | .msgReceivedDefault => .defaultFam
  | .msgSentDefault => .defaultFam
  | .handledDefault _ => .defaultFam
  | .startedLegacy => .legacyFam
  | .msgReceivedLegacy => .legacyFam
  | .msgSentLegacy => .legacyFam
  | .handledLegacy _ => .legacyFam

/-- Which family a latency instrument belongs to. -/
def Hist.family : Hist → Family
  | .handledHistogram => .defaultFam
  | .legacyLatency => .legacyFam

/-- Which family an event writes to. -/
def Event.family : Event → Family
  | .inc c => c.family
  | .obs h _ => h.family

/-- Boolean test that an event writes to the given family. -/
def Event.inFamily (e : Event) (f : Family) : Bool :=
  decide (e.family = f)

/-- Recognises increments of a started counter (either family). -/
def Event.isStartedInc : Event → Bool
  | .inc .startedDefault => true
  | .inc .startedLegacy => true
  | _ => false

/-- Recognises increments of a handled counter (either family). -/
def Event.isHandledInc : Event → Bool
  | .inc (.handledDefault _) => true
  | .inc (.handledLegacy _) => true
  | _ => false

/-- Recognises increments of a stream-received counter (either family). -/
def Event.isReceivedInc : Event → Bool
  | .inc .msgReceivedDefault => true
  | .inc .msgReceivedLegacy => true
  | _ => false

/-- Recognises increments of a stream-sent counter (either family). -/
def Event.isSentInc : Event → Bool
  | .inc .msgSentDefault => true
  | .inc .msgSentLegacy => true
  | _ => false

/-- Recognises latency observations (either instrument). -/
def Event.isLatencyObs : Event → Bool
  | .obs _ _ => true
  | _ => false

/-- One step of a lazy message stream as seen by its consumer: either a metric
event fired during the pull, or a message delivered.  Messages are opaque and
modelled as naturals. -/
inductive Item
  | ev (e : Event)
  | deliver (m : Nat)
  deriving DecidableEq, Repr

/-- An unwrapped stream: delivers its messages with no metric side effects. -/
def baseStream (xs : List Nat) : List Item :=
  xs.map Item.deliver

/-- Modelled from the spec: grpc_utils.wrap_iterator_inc_counter is not under
src; spec section 4.2 says the adapter yields a sequence observably identical
to the source and, immediately before yielding each element to the downstream
consumer, invokes the counter exactly once, forwarding events of the inner
stream unchanged. -/
def wrap_iterator_inc_counter (counter : Counter) (s : List Item) : List Item :=
  s.flatMap fun it =>
    match it with
    | .deliver m => [Item.ev (Event.inc counter), Item.deliver m]
    | .ev e => [Item.ev e]

/-- The metric events fired while a stream is consumed, in order. -/
def eventsOf (s : List Item) : List Event :=
  s.flatMap fun it =>
    match it with
    | .ev e => [e]
    | .deliver _ => []

/-- The messages a stream delivers, in order. -/
def deliveredOf (s : List Item) : List Nat :=
  s.flatMap fun it =>
    match it with
    | .ev _ => []
    | .deliver m => [m]

/-- Constructor state of PromServerInterceptor: the two flags set in init. -/
structure PromServerInterceptor where
  enable_handling_time_histogram : Bool
  legacy : Bool
  deriving DecidableEq, Repr

/-- The fields of servicer_context._state read by _compute_status_code. -/
structure ServicerContextState where
  client : String
  code : Option StatusCode
  deriving DecidableEq, Repr

/-- Embeds _compute_status_code (lines 159-166): CANCELLED when the client
state reads cancelled, OK when no code was set, otherwise the set code. -/
def compute_status_code (sc : ServicerContextState) : StatusCode :=
  if sc.client = "cancelled" then StatusCode.CANCELLED
  else
    match sc.code with
    | none => StatusCode.OK
    | some c => c

/-- A grpc.RpcError as the interceptor observes it: whether it is also a
grpc.Call (and then which code it carries). -/
structure RpcError where
  isCall : Bool
  code : StatusCode
  deriving DecidableEq, Repr

/-- Embeds _compute_error_code (lines 168-172): the code name when the error
is a grpc.Call, otherwise UNKNOWN. -/
def compute_error_code (e : RpcError) : String :=
  if e.isCall then e.code.name else StatusCode.UNKNOWN.name

/-- The received_metric local of lines 47-49: selected per the legacy flag. -/
def received_metric (I : PromServerInterceptor) : Counter :=
  if I.legacy then Counter.msgReceivedLegacy else Counter.msgReceivedDefault

/-- The sent_metric local of lines 84-86: selected per the legacy flag. -/
def sent_metric (I : PromServerInterceptor) : Counter :=
  if I.legacy then Counter.msgSentLegacy else Counter.msgSentDefault

/-- The started counter used on the non-request-streaming path (lines 66-77). -/
def startedCounter (I : PromServerInterceptor) : Counter :=
  if I.legacy then Counter.startedLegacy else Counter.startedDefault

/-- The handled counter used at completion (lines 105-116 and 121-132). -/
def handledCounter (I : PromServerInterceptor) (code : String) : Counter :=
  if I.legacy then Counter.handledLegacy code else Counter.handledDefault code

/-- Embeds lines 51-64: the request iterator is wrapped with
GRPC_SERVER_STREAM_MSG_RECEIVED (the literal default-family metric, not the
received_metric local selected at lines 47-49, which line 54 leaves unused),
and additionally, in non-legacy mode only, with GRPC_SERVER_STREAM_MSG_SENT. -/
def wrapRequest (I : PromServerInterceptor) (s : List Item) : List Item :=
  let s1 := wrap_iterator_inc_counter Counter.msgReceivedDefault s
  if I.legacy then s1
  else wrap_iterator_inc_counter Counter.msgSentDefault s1

/-- Embeds lines 82-101: in non-legacy mode the response iterator is first
wrapped with GRPC_SERVER_STREAM_MSG_RECEIVED, then (in both modes) with the
sent_metric selected by the legacy flag. -/
def wrapResponse (I : PromServerInterceptor) (s : List Item) : List Item :=
  let s1 := if I.legacy then s else wrap_iterator_inc_counter Counter.msgReceivedDefault s
  wrap_iterator_inc_counter (sent_metric I) s1

/-- Embeds lines 136-150, the finally block: no observation for
response-streaming calls; otherwise legacy mode always observes the legacy
latency metric, else the histogram observes only when the flag is on; the
value is max(now - start, 0). -/
def latencyEvents (I : PromServerInterceptor) (response_streaming : Bool)
    (startT endT : Int) : List Event :=
  if response_streaming then []
  else if I.legacy then [Event.obs Hist.legacyLatency (max (endT - startT) 0)]
  else if I.enable_handling_time_histogram then
    [Event.obs Hist.handledHistogram (max (endT - startT) 0)]
  else []

/-- What the wrapped handler body does: returns (with the given response
elements when response-streaming), raises a grpc.RpcError, or raises a
non-RPC fault. -/
inductive BodyResult
  | ret (resp : List Nat)
  | raiseRpc (e : RpcError)
  | raiseFault
  deriving DecidableEq, Repr

/-- How the intercepted call terminates towards the transport. -/
inductive CallOutcome
  | returned
  | raisedRpc (e : RpcError)
  | raisedFault
  deriving DecidableEq, Repr

/-- The observable result of one intercepted call: the ordered metric events
and the outcome. -/
structure CallTrace where
  events : List Event
  outcome : CallOutcome
  deriving DecidableEq, Repr

/-- The events recorded up to and during the handler body (lines 51-80):
for request-streaming calls, the counting-adapter events for the request
elements the handler actually pulled; otherwise the single started inc. -/
def preBodyEvents (I : PromServerInterceptor) (request_streaming : Bool)
    (reqPulled : List Nat) : List Event :=
  if request_streaming then eventsOf (wrapRequest I (baseStream reqPulled))
  else [Event.inc (startedCounter I)]

/-- Embeds new_behavior (lines 41-152).  reqPulled lists the request elements
the handler body pulls before it finishes (empty when not request-streaming);
startT and endT are the clock readings at entry and at the finally block.
On return of a response-streaming call the wrapped response iterator is
consumed downstream, so its adapter events follow the finally block. -/
def new_behavior (I : PromServerInterceptor)
    (request_streaming response_streaming : Bool)
    (reqPulled : List Nat) (body : BodyResult)
    (sc : ServicerContextState) (startT endT : Int) : CallTrace :=
  let pre := preBodyEvents I request_streaming reqPulled
  let lat := latencyEvents I response_streaming startT endT
  match body with
  | .ret resp =>
    if response_streaming then
      { events := pre ++ lat ++ eventsOf (wrapResponse I (baseStream resp))
        outcome := .returned }
    else
      { events := pre ++ [Event.inc (handledCounter I (compute_status_code sc).name)] ++ lat
        outcome := .returned }
  | .raiseRpc e =>
    { events := pre ++ [Event.inc (handledCounter I (compute_error_code e))] ++ lat
      outcome := .raisedRpc e }
  | .raiseFault =>
    { events := pre ++ lat
      outcome := .raisedFault }

/-- A grpc.RpcMethodHandler as _wrap_rpc_behavior reads it: the two streaming
flags, the four shape entry points (opaque behaviours of type a), and the two
(de)serializers (opaque, modelled as naturals). -/
structure RpcMethodHandler (a : Type) where
  request_streaming : Bool
  response_streaming : Bool
  unary_unary : a
  unary_stream : a
  stream_unary : a
  stream_stream : a
  request_deserializer : Nat
  response_serializer : Nat
  deriving DecidableEq, Repr

/-- A handler built by one of the four grpc handler factories: its streaming
flags are fixed by which factory was used, and it carries the wrapped
behaviour and the (de)serializers passed to the factory. -/
structure BuiltHandler (b : Type) where
  request_streaming : Bool
  response_streaming : Bool
  behavior : b
  request_deserializer : Nat
  response_serializer : Nat
  deriving DecidableEq, Repr

/-- grpc.unary_unary_rpc_method_handler (external collaborator). -/
def unary_unary_rpc_method_handler (bh : b) (rd rs : Nat) : BuiltHandler b :=
  { request_streaming := false, response_streaming := false, behavior := bh,
    request_deserializer := rd, response_serializer := rs }

/-- grpc.unary_stream_rpc_method_handler (external collaborator). -/
def unary_stream_rpc_method_handler (bh : b) (rd rs : Nat) : BuiltHandler b :=
  { request_streaming := false, response_streaming := true, behavior := bh,
    request_deserializer := rd, response_serializer := rs }

/-- grpc.stream_unary_rpc_method_handler (external collaborator). -/
def stream_unary_rpc_method_handler (bh : b) (rd rs : Nat) : BuiltHandler b :=
  { request_streaming := true, response_streaming := false, behavior := bh,
    request_deserializer := rd, response_serializer := rs }

/-- grpc.stream_stream_rpc_method_handler (external collaborator). -/
def stream_stream_rpc_method_handler (bh : b) (rd rs : Nat) : BuiltHandler b :=
  { request_streaming := true, response_streaming := true, behavior := bh,
    request_deserializer := rd, response_serializer := rs }

/-- The shape entry point the if-elif-elif-else chain of lines 179-190
selects, written as an exhaustive match over the two flags. -/
def selected_behavior (h : RpcMethodHandler a) : a :=
  match h.request_streaming, h.response_streaming with
  | true, true => h.stream_stream
  | true, false => h.stream_unary
  | false, true => h.unary_stream
  | false, false => h.unary_unary

/-- Embeds _wrap_rpc_behavior (lines 174-195): None passes through; otherwise
the entry point matching the handler shape is wrapped by fn and rebuilt with
the matching factory and the original (de)serializers. -/
def wrap_rpc_behavior (handler : Option (RpcMethodHandler a))
    (fn : a → Bool → Bool → b) : Option (BuiltHandler b) :=
  match handler with
  | none => none
  | some h =>
    if h.request_streaming && h.response_streaming then
      some (stream_stream_rpc_method_handler
        (fn h.stream_stream h.request_streaming h.response_streaming)
        h.request_deserializer h.response_serializer)
    else if h.request_streaming && !h.response_streaming then
      some (stream_unary_rpc_method_handler
        (fn h.stream_unary h.request_streaming h.response_streaming)
        h.request_deserializer h.response_serializer)
    else if !h.request_streaming && h.response_streaming then
      some (unary_stream_rpc_method_handler
        (fn h.unary_stream h.request_streaming h.response_streaming)
        h.request_deserializer h.response_serializer)
    else
      some (unary_unary_rpc_method_handler
        (fn h.unary_unary h.request_streaming h.response_streaming)
        h.request_deserializer h.response_serializer)

/-- Embeds intercept_service (lines 27-156): it splits the method path,
builds the metrics wrapper and returns _wrap_rpc_behavior applied to the
continuation result.  Its second component is the list of metric events the
call to intercept_service itself performs: the body contains no counter or
histogram operation (those happen only when a wrapped new_behavior is later
invoked), so that list is empty by construction. -/
def intercept_service (I : PromServerInterceptor)
    (continuation : Option (RpcMethodHandler a)) (fn : a → Bool → Bool → b) :
    Option (BuiltHandler b) × List Event :=
  (wrap_rpc_behavior continuation fn, [])

/-! Helper lemmas about the counting-adapter streams. -/

theorem eventsOf_append (s t : List Item) :
    eventsOf (s ++ t) = eventsOf s ++ eventsOf t := by
  simp [eventsOf]

theorem wrap_cons (c : Counter) (it : Item) (s : List Item) :
    wrap_iterator_inc_counter c (it :: s) =
      (match it with
        | .deliver m => [Item.ev (Event.inc c), Item.deliver m]
        | .ev e => [Item.ev e]) ++ wrap_iterator_inc_counter c s := by
  cases it <;> simp [wrap_iterator_inc_counter]

theorem eventsOf_cons (it : Item) (s : List Item) :
    eventsOf (it :: s) =
      (match it with
        | .deliver _ => []
        | .ev e => [e]) ++ eventsOf s := by
  cases it <;> simp [eventsOf]

theorem deliveredOf_cons (it : Item) (s : List Item) :
    deliveredOf (it :: s) =
      (match it with
        | .deliver m => [m]
        | .ev _ => []) ++ deliveredOf s := by
  cases it <;> simp [deliveredOf]

theorem eventsOf_nil : eventsOf [] = [] := rfl

theorem deliveredOf_nil : deliveredOf [] = [] := rfl

theorem deliveredOf_baseStream (xs : List Nat) :
    deliveredOf (baseStream xs) = xs := by
  induction xs with
  | nil => rfl
  | cons x xs ih => simp [baseStream, deliveredOf] at ih ⊢; exact ih

theorem eventsOf_baseStream (xs : List Nat) :
    eventsOf (baseStream xs) = [] := by
  induction xs with
  | nil => rfl
  | cons x xs ih => simp [baseStream, eventsOf] at ih ⊢

theorem deliveredOf_wrap (c : Counter) (s : List Item) :
    deliveredOf (wrap_iterator_inc_counter c s) = deliveredOf s := by
  induction s with
  | nil => rfl
  | cons it s ih =>
    cases it <;> simp [wrap_iterator_inc_counter, deliveredOf] at ih ⊢ <;> exact ih

theorem countP_eventsOf_wrap (p : Event → Bool) (c : Counter) (s : List Item) :
    (eventsOf (wrap_iterator_inc_counter c s)).countP p =
      (if p (Event.inc c) then (deliveredOf s).length else 0) +
        (eventsOf s).countP p := by
  induction s with
  | nil => simp [wrap_iterator_inc_counter, eventsOf, deliveredOf]
  | cons it s ih =>
    cases it with
    | ev e =>
      rw [wrap_cons]
      simp only [eventsOf_append, eventsOf_cons, eventsOf_nil, deliveredOf_cons,
        deliveredOf_nil, List.nil_append, List.countP_append, List.countP_cons,
        List.countP_nil, ih]
      omega
    | deliver m =>
      rw [wrap_cons]
      simp only [eventsOf_append, eventsOf_cons, eventsOf_nil, deliveredOf_cons,
        deliveredOf_nil, List.nil_append, List.countP_append, List.countP_cons,
        List.countP_nil, List.length_append, List.length_cons, List.length_nil, ih]
      by_cases hp : p (Event.inc c) <;> simp [hp] <;> omega

theorem countP_wrapRequest (I : PromServerInterceptor) (p : Event → Bool)
    (xs : List Nat) :
    (eventsOf (wrapRequest I (baseStream xs))).countP p =
      (if p (Event.inc Counter.msgReceivedDefault) then xs.length else 0) +
        (if I.legacy then 0
          else if p (Event.inc Counter.msgSentDefault) then xs.length else 0) := by
  unfold wrapRequest
  by_cases hl : I.legacy <;>
    simp [hl, countP_eventsOf_wrap, deliveredOf_wrap, deliveredOf_baseStream,
      eventsOf_baseStream, eventsOf_nil] <;>
    omega

theorem countP_wrapResponse (I : PromServerInterceptor) (p : Event → Bool)
    (xs : List Nat) :
    (eventsOf (wrapResponse I (baseStream xs))).countP p =
      (if p (Event.inc (sent_metric I)) then xs.length else 0) +
        (if I.legacy then 0
          else if p (Event.inc Counter.msgReceivedDefault) then xs.length else 0) := by
  unfold wrapResponse
  by_cases hl : I.legacy <;>
    simp [hl, countP_eventsOf_wrap, deliveredOf_wrap, deliveredOf_baseStream,
      eventsOf_baseStream, eventsOf_nil]

theorem countP_preBodyEvents (I : PromServerInterceptor) (rq : Bool)
    (xs : List Nat) (p : Event → Bool) :
    (preBodyEvents I rq xs).countP p =
      if rq then
        (if p (Event.inc Counter.msgReceivedDefault) then xs.length else 0) +
          (if I.legacy then 0
            else if p (Event.inc Counter.msgSentDefault) then xs.length else 0)
      else if p (Event.inc (startedCounter I)) then 1 else 0 := by
  cases rq with
  | false => simp [preBodyEvents, List.countP_cons]
  | true => simp [preBodyEvents, countP_wrapRequest]

theorem countP_latencyEvents_notObs (I : PromServerInterceptor) (ps : Bool)
    (t0 t1 : Int) (p : Event → Bool) (hp : ∀ h v, p (Event.obs h v) = false) :
    (latencyEvents I ps t0 t1).countP p = 0 := by
  unfold latencyEvents
  by_cases h1 : ps <;> by_cases h2 : I.legacy <;>
    by_cases h3 : I.enable_handling_time_histogram <;> simp [h1, h2, h3, hp]

theorem countP_latencyEvents_obs (I : PromServerInterceptor) (ps : Bool)
    (t0 t1 : Int) :
    (latencyEvents I ps t0 t1).countP Event.isLatencyObs =
      if ps then 0
      else if I.legacy then 1
      else if I.enable_handling_time_histogram then 1 else 0 := by
  unfold latencyEvents
  by_cases h1 : ps <;> by_cases h2 : I.legacy <;>
    by_cases h3 : I.enable_handling_time_histogram <;>
      simp [h1, h2, h3, Event.isLatencyObs]

theorem new_behavior_ret_nonstream (I : PromServerInterceptor) (rq : Bool)
    (reqPulled resp : List Nat) (sc : ServicerContextState) (t0 t1 : Int) :
    new_behavior I rq false reqPulled (.ret resp) sc t0 t1 =
      { events := preBodyEvents I rq reqPulled ++
          [Event.inc (handledCounter I (compute_status_code sc).name)] ++
          latencyEvents I false t0 t1,
        outcome := CallOutcome.returned } := rfl

theorem new_behavior_ret_stream (I : PromServerInterceptor) (rq : Bool)
    (reqPulled resp : List Nat) (sc : ServicerContextState) (t0 t1 : Int) :
    new_behavior I rq true reqPulled (.ret resp) sc t0 t1 =
      { events := preBodyEvents I rq reqPulled ++ latencyEvents I true t0 t1 ++
          eventsOf (wrapResponse I (baseStream resp)),
        outcome := CallOutcome.returned } := rfl

theorem new_behavior_raiseRpc (I : PromServerInterceptor) (rq ps : Bool)
    (reqPulled : List Nat) (e : RpcError) (sc : ServicerContextState) (t0 t1 : Int) :
    new_behavior I rq ps reqPulled (.raiseRpc e) sc t0 t1 =
      { events := preBodyEvents I rq reqPulled ++
          [Event.inc (handledCounter I (compute_error_code e))] ++
          latencyEvents I ps t0 t1,
        outcome := CallOutcome.raisedRpc e } := rfl

theorem new_behavior_raiseFault (I : PromServerInterceptor) (rq ps : Bool)
    (reqPulled : List Nat) (sc : ServicerContextState) (t0 t1 : Int) :
    new_behavior I rq ps reqPulled .raiseFault sc t0 t1 =
      { events := preBodyEvents I rq reqPulled ++ latencyEvents I ps t0 t1,
        outcome := CallOutcome.raisedFault } := rfl

theorem isLatencyObs_inc (c : Counter) : Event.isLatencyObs (Event.inc c) = false := rfl

theorem isHandledInc_obs (h : Hist) (v : Int) :
    Event.isHandledInc (Event.obs h v) = false := rfl

theorem isStartedInc_obs (h : Hist) (v : Int) :
    Event.isStartedInc (Event.obs h v) = false := rfl

theorem isHandledInc_startedCounter (I : PromServerInterceptor) :
    Event.isHandledInc (Event.inc (startedCounter I)) = false := by
  unfold startedCounter
  by_cases h : I.legacy <;> simp [h, Event.isHandledInc]

theorem isHandledInc_sentMetric (I : PromServerInterceptor) :
    Event.isHandledInc (Event.inc (sent_metric I)) = false := by
  unfold sent_metric
  by_cases h : I.legacy <;> simp [h, Event.isHandledInc]

theorem isHandledInc_handledCounter (I : PromServerInterceptor) (code : String) :
    Event.isHandledInc (Event.inc (handledCounter I code)) = true := by
  unfold handledCounter
  by_cases h : I.legacy <;> simp [h, Event.isHandledInc]

theorem isStartedInc_startedCounter (I : PromServerInterceptor) :
    Event.isStartedInc (Event.inc (startedCounter I)) = true := by
  unfold startedCounter
  by_cases h : I.legacy <;> simp [h, Event.isStartedInc]

theorem isStartedInc_sentMetric (I : PromServerInterceptor) :
    Event.isStartedInc (Event.inc (sent_metric I)) = false := by
  unfold sent_metric
  by_cases h : I.legacy <;> simp [h, Event.isStartedInc]

theorem isStartedInc_handledCounter (I : PromServerInterceptor) (code : String) :
    Event.isStartedInc (Event.inc (handledCounter I code)) = false := by
  unfold handledCounter
  by_cases h : I.legacy <;> simp [h, Event.isStartedInc]

theorem isSentInc_sentMetric (I : PromServerInterceptor) :
    Event.isSentInc (Event.inc (sent_metric I)) = true := by
  unfold sent_metric
  by_cases h : I.legacy <;> simp [h, Event.isSentInc]

theorem isReceivedInc_sentMetric (I : PromServerInterceptor) :
    Event.isReceivedInc (Event.inc (sent_metric I)) = false := by
  unfold sent_metric
  by_cases h : I.legacy <;> simp [h, Event.isReceivedInc]

theorem isHandledInc_msgReceivedDefault :
    Event.isHandledInc (Event.inc Counter.msgReceivedDefault) = false := rfl

theorem isHandledInc_msgSentDefault :
    Event.isHandledInc (Event.inc Counter.msgSentDefault) = false := rfl

theorem isStartedInc_msgReceivedDefault :
    Event.isStartedInc (Event.inc Counter.msgReceivedDefault) = false := rfl

theorem isStartedInc_msgSentDefault :
    Event.isStartedInc (Event.inc Counter.msgSentDefault) = false := rfl

theorem isReceivedInc_msgReceivedDefault :
    Event.isReceivedInc (Event.inc Counter.msgReceivedDefault) = true := rfl

theorem isReceivedInc_msgSentDefault :
    Event.isReceivedInc (Event.inc Counter.msgSentDefault) = false := rfl

theorem isSentInc_msgReceivedDefault :
    Event.isSentInc (Event.inc Counter.msgReceivedDefault) = false := rfl

theorem isSentInc_msgSentDefault :
    Event.isSentInc (Event.inc Counter.msgSentDefault) = true := rfl

theorem mem_eventsOf_wrap (c : Counter) (s : List Item) (e : Event)
    (he : e ∈ eventsOf (wrap_iterator_inc_counter c s)) :
    e = Event.inc c ∨ e ∈ eventsOf s := by
  induction s with
  | nil => simp [wrap_iterator_inc_counter, eventsOf] at he
  | cons it s ih =>
    rw [wrap_cons, eventsOf_append] at he
    rw [eventsOf_cons]
    rcases List.mem_append.mp he with h1 | h2
    · cases it with
      | ev a =>
        simp only [eventsOf_cons, eventsOf_nil] at h1
        simp only [List.mem_append] at h1 ⊢
        right; left
        simpa using h1
      | deliver m =>
        left
        simp [eventsOf_cons, eventsOf_nil, eventsOf] at h1
        exact h1
    · rcases ih h2 with h3 | h3
      · exact Or.inl h3
      · right
        simp only [List.mem_append]
        exact Or.inr h3

theorem no_obs_mem_preBodyEvents (I : PromServerInterceptor) (rq : Bool)
    (xs : List Nat) (h : Hist) (v : Int)
    (hm : Event.obs h v ∈ preBodyEvents I rq xs) : False := by
  cases rq with
  | false => simp [preBodyEvents] at hm
  | true =>
    simp only [preBodyEvents, if_true] at hm
    unfold wrapRequest at hm
    by_cases hl : I.legacy <;> simp only [hl, if_true, if_false] at hm
    · rcases mem_eventsOf_wrap _ _ _ hm with h1 | h1
      · exact Event.noConfusion h1
      · rw [eventsOf_baseStream] at h1
        simp at h1
    · rcases mem_eventsOf_wrap _ _ _ hm with h1 | h1
      · exact Event.noConfusion h1
      · rcases mem_eventsOf_wrap _ _ _ h1 with h2 | h2
        · exact Event.noConfusion h2
        · rw [eventsOf_baseStream] at h2
          simp at h2

theorem obs_mem_latencyEvents (I : PromServerInterceptor) (ps : Bool)
    (t0 t1 : Int) (h : Hist) (v : Int)
    (hm : Event.obs h v ∈ latencyEvents I ps t0 t1) : v = max (t1 - t0) 0 := by
  unfold latencyEvents at hm
  by_cases h1 : ps <;> by_cases h2 : I.legacy <;>
    by_cases h3 : I.enable_handling_time_histogram <;>
      simp [h1, h2, h3] at hm <;> exact hm.2

theorem wrap_single_baseStream (c : Counter) (xs : List Nat) :
    wrap_iterator_inc_counter c (baseStream xs) =
      xs.flatMap (fun m => [Item.ev (Event.inc c), Item.deliver m]) := by
  induction xs with
  | nil => rfl
  | cons x xs ih =>
    simp only [baseStream, List.map_cons, wrap_cons, List.flatMap_cons]
    rw [← baseStream, ih]

theorem wrap_wrap_baseStream (c d : Counter) (xs : List Nat) :
    wrap_iterator_inc_counter d (wrap_iterator_inc_counter c (baseStream xs)) =
      xs.flatMap (fun m =>
        [Item.ev (Event.inc c), Item.ev (Event.inc d), Item.deliver m]) := by
  induction xs with
  | nil => rfl
  | cons x xs ih =>
    simp only [baseStream, List.map_cons, wrap_cons, List.flatMap_cons]
    rw [← baseStream]
    simp only [List.cons_append, List.nil_append, wrap_cons]
    rw [ih]

/-! Claim theorems. -/

/-- C1: the claim says a legacy-mode call writes only legacy-family metrics,
and in particular that per-request-element received increments of a legacy
request-streaming call go to the legacy received counter.  The code selects
received_metric per the legacy flag (lines 47-49) but then wraps the request
iterator with the literal default-family GRPC_SERVER_STREAM_MSG_RECEIVED
(line 54), so a legacy request-streaming call that pulls one element writes a
default-family increment and never the legacy received counter: the code
contradicts its own metric selection. -/
theorem c1_legacy_request_stream_received_goes_to_default_family :
    received_metric { enable_handling_time_histogram := false, legacy := true } =
      Counter.msgReceivedLegacy ∧
    (new_behavior { enable_handling_time_histogram := false, legacy := true }
        true false [7] .raiseFault { client := "", code := none } 0 0).events.countP
      (fun e => Event.inFamily e Family.defaultFam) = 1 ∧
    Event.inc Counter.msgReceivedDefault ∈
      (new_behavior { enable_handling_time_histogram := false, legacy := true }
        true false [7] .raiseFault { client := "", code := none } 0 0).events ∧
    Event.inc Counter.msgReceivedLegacy ∉
      (new_behavior { enable_handling_time_histogram := false, legacy := true }
        true false [7] .raiseFault { client := "", code := none } 0 0).events := by
  decide

/-- C2 counterexample: the claim says a response-streaming call never records
a handled increment, not even on error; but when the handler body of a
response-streaming call raises a grpc.RpcError at invocation time, the except
branch (lines 119-134) records one handled increment. -/
theorem c2_counterexample :
    (new_behavior { enable_handling_time_histogram := false, legacy := false }
        false true [] (.raiseRpc { isCall := true, code := .NOT_FOUND })
        { client := "", code := none } 0 0).events.countP Event.isHandledInc = 1 := by
  decide

/-- C2 amended: for every response-streaming call, no latency observation is
ever recorded, and no handled increment is recorded on successful completion
or on a non-RPC fault; however, when the handler body raises an RPC-level
error at invocation time, exactly one handled increment is recorded. -/
theorem c2_response_streaming_no_latency_no_success_handled
    (I : PromServerInterceptor) (rq : Bool) (reqPulled : List Nat)
    (body : BodyResult) (sc : ServicerContextState) (t0 t1 : Int) :
    (new_behavior I rq true reqPulled body sc t0 t1).events.countP
        Event.isLatencyObs = 0 ∧
    (∀ resp, body = .ret resp →
      (new_behavior I rq true reqPulled body sc t0 t1).events.countP
        Event.isHandledInc = 0) ∧
    (body = .raiseFault →
      (new_behavior I rq true reqPulled body sc t0 t1).events.countP
        Event.isHandledInc = 0) ∧
    (∀ e, body = .raiseRpc e →
      (new_behavior I rq true reqPulled body sc t0 t1).events.countP
        Event.isHandledInc = 1) := by
  refine ⟨?_, ?_, ?_, ?_⟩
  · cases body with
    | ret resp =>
      simp only [new_behavior, if_true, List.countP_append]
      rw [countP_preBodyEvents, countP_latencyEvents_obs, countP_wrapResponse]
      simp [isLatencyObs_inc]
    | raiseRpc e =>
      simp only [new_behavior, List.countP_append]
      rw [countP_preBodyEvents, countP_latencyEvents_obs]
      simp [isLatencyObs_inc, List.countP_cons]
    | raiseFault =>
      simp only [new_behavior, List.countP_append]
      rw [countP_preBodyEvents, countP_latencyEvents_obs]
      simp [isLatencyObs_inc]
  · rintro resp rfl
    simp only [new_behavior, if_true, List.countP_append]
    rw [countP_preBodyEvents, countP_wrapResponse,
      countP_latencyEvents_notObs _ _ _ _ _ isHandledInc_obs]
    simp [isHandledInc_startedCounter, isHandledInc_sentMetric,
      isHandledInc_msgReceivedDefault, isHandledInc_msgSentDefault]
  · rintro rfl
    simp only [new_behavior, List.countP_append]
    rw [countP_preBodyEvents,
      countP_latencyEvents_notObs _ _ _ _ _ isHandledInc_obs]
    simp [isHandledInc_startedCounter, isHandledInc_msgReceivedDefault,
      isHandledInc_msgSentDefault]
  · rintro e rfl
    simp only [new_behavior, List.countP_append, List.countP_cons, List.countP_nil]
    rw [countP_preBodyEvents,
      countP_latencyEvents_notObs _ _ _ _ _ isHandledInc_obs]
    simp [isHandledInc_startedCounter, isHandledInc_handledCounter,
      isHandledInc_msgReceivedDefault, isHandledInc_msgSentDefault]

/-- C2 witness: the amended statement applied to a concrete successful
server-streaming call with two response elements. -/
theorem c2_witness :
    (new_behavior { enable_handling_time_histogram := true, legacy := false }
        false true [] (.ret [1, 2]) { client := "", code := none } 0 9).events.countP
      Event.isLatencyObs = 0 ∧
    (new_behavior { enable_handling_time_histogram := true, legacy := false }
        false true [] (.ret [1, 2]) { client := "", code := none } 0 9).events.countP
      Event.isHandledInc = 0 := by
  have h := c2_response_streaming_no_latency_no_success_handled
    { enable_handling_time_histogram := true, legacy := false }
    false [] (.ret [1, 2]) { client := "", code := none } 0 9
  exact ⟨h.1, h.2.1 [1, 2] rfl⟩

/-- C3 counterexample: the claim says a non-RPC fault propagates with only the
metrics recorded before the fault (here only the started increment)
reflecting the call; but for a legacy unary call the finally block records a
latency observation after the fault as well. -/
theorem c3_counterexample :
    (new_behavior { enable_handling_time_histogram := false, legacy := true }
        false false [] .raiseFault { client := "", code := none } 0 5).outcome =
      CallOutcome.raisedFault ∧
    (new_behavior { enable_handling_time_histogram := false, legacy := true }
        false false [] .raiseFault { client := "", code := none } 0 5).events =
      [Event.inc Counter.startedLegacy, Event.obs Hist.legacyLatency 5] := by
  decide

/-- C3 amended: a non-RPC fault from the handler body is not caught by the
interceptor, no handled increment is ever recorded for it, the fault
propagates, and the trace is exactly the events recorded before the fault
plus, for non-response-streaming calls, the latency observation of the
finally block per the mode rules. -/
theorem c3_nonrpc_fault_propagates (I : PromServerInterceptor) (rq ps : Bool)
    (reqPulled : List Nat) (sc : ServicerContextState) (t0 t1 : Int) :
    (new_behavior I rq ps reqPulled .raiseFault sc t0 t1).outcome =
      CallOutcome.raisedFault ∧
    (new_behavior I rq ps reqPulled .raiseFault sc t0 t1).events.countP
      Event.isHandledInc = 0 ∧
    (new_behavior I rq ps reqPulled .raiseFault sc t0 t1).events =
      preBodyEvents I rq reqPulled ++ latencyEvents I ps t0 t1 := by
  refine ⟨rfl, ?_, rfl⟩
  simp only [new_behavior, List.countP_append]
  rw [countP_preBodyEvents,
    countP_latencyEvents_notObs _ _ _ _ _ isHandledInc_obs]
  simp [isHandledInc_startedCounter, isHandledInc_msgReceivedDefault,
    isHandledInc_msgSentDefault]

/-- C10: when the continuation yields no handler, intercept_service returns
None without raising and performs no metric increment or observation. -/
theorem c10_none_handler_passthrough (I : PromServerInterceptor)
    (fn : a → Bool → Bool → b) :
    intercept_service I (none : Option (RpcMethodHandler a)) fn =
      (none, ([] : List Event)) := rfl

/-- C4: for every non-streaming-response call whose handler raises a
grpc.RpcError, exactly one handled increment is recorded, labelled with the
code resolved by _compute_error_code (the error's own code when the error is
a grpc.Call, UNKNOWN otherwise), and the identical error is re-raised. -/
theorem c4_rpc_error_handled_once (I : PromServerInterceptor) (rq : Bool)
    (reqPulled : List Nat) (e : RpcError) (sc : ServicerContextState) (t0 t1 : Int) :
    (new_behavior I rq false reqPulled (.raiseRpc e) sc t0 t1).events.countP
      Event.isHandledInc = 1 ∧
    Event.inc (handledCounter I (compute_error_code e)) ∈
      (new_behavior I rq false reqPulled (.raiseRpc e) sc t0 t1).events ∧
    compute_error_code e =
      (if e.isCall then e.code.name else StatusCode.UNKNOWN.name) ∧
    (new_behavior I rq false reqPulled (.raiseRpc e) sc t0 t1).outcome =
      CallOutcome.raisedRpc e := by
  refine ⟨?_, ?_, rfl, rfl⟩
  · simp only [new_behavior, List.countP_append, List.countP_cons, List.countP_nil]
    rw [countP_preBodyEvents,
      countP_latencyEvents_notObs _ _ _ _ _ isHandledInc_obs]
    simp [isHandledInc_startedCounter, isHandledInc_handledCounter,
      isHandledInc_msgReceivedDefault, isHandledInc_msgSentDefault]
  · simp [new_behavior]

/-- C5: for every non-streaming-response call that completes successfully,
exactly one handled increment is recorded, labelled with the status
_compute_status_code resolves by reading the call context: CANCELLED when the
client state reads cancelled, OK when no code was set, otherwise the set
code; compute_status_code is a pure function of the context state, so the
resolution reads the context without mutating it. -/
theorem c5_success_handled_once (I : PromServerInterceptor) (rq : Bool)
    (reqPulled resp : List Nat) (sc : ServicerContextState) (t0 t1 : Int) :
    (new_behavior I rq false reqPulled (.ret resp) sc t0 t1).outcome =
      CallOutcome.returned ∧
    (new_behavior I rq false reqPulled (.ret resp) sc t0 t1).events.countP
      Event.isHandledInc = 1 ∧
    Event.inc (handledCounter I (compute_status_code sc).name) ∈
      (new_behavior I rq false reqPulled (.ret resp) sc t0 t1).events ∧
    (sc.client = "cancelled" → compute_status_code sc = StatusCode.CANCELLED) ∧
    (sc.client ≠ "cancelled" → sc.code = none →
      compute_status_code sc = StatusCode.OK) ∧
    (∀ c, sc.client ≠ "cancelled" → sc.code = some c →
      compute_status_code sc = c) := by
  refine ⟨rfl, ?_, ?_, ?_, ?_, ?_⟩
  · rw [new_behavior_ret_nonstream]
    simp only [List.countP_append, List.countP_cons, List.countP_nil]
    rw [countP_preBodyEvents,
      countP_latencyEvents_notObs _ _ _ _ _ isHandledInc_obs]
    simp [isHandledInc_startedCounter, isHandledInc_handledCounter,
      isHandledInc_msgReceivedDefault, isHandledInc_msgSentDefault]
  · rw [new_behavior_ret_nonstream]
    simp
  · intro h
    simp [compute_status_code, h]
  · intro h1 h2
    simp [compute_status_code, h1, h2]
  · intro c h1 h2
    simp [compute_status_code, h1, h2]

/-- C5 witness: a concrete unary call whose context reads cancelled resolves
to CANCELLED and records one handled increment. -/
theorem c5_witness :
    (new_behavior { enable_handling_time_histogram := false, legacy := false }
        false false [] (.ret []) { client := "cancelled", code := none } 0 1).events.countP
      Event.isHandledInc = 1 ∧
    compute_status_code { client := "cancelled", code := none } =
      StatusCode.CANCELLED := by
  have h := c5_success_handled_once
    { enable_handling_time_histogram := false, legacy := false }
    false [] [] { client := "cancelled", code := none } 0 1
  exact ⟨h.2.1, h.2.2.2.1 rfl⟩

/-- C6: for every non-streaming-response call, success or error, the finally
block records exactly one latency observation when legacy mode is on (to the
legacy latency metric) or when the histogram flag is on in non-legacy mode
(to the histogram), zero observations when both are off, and every observed
value is max(endT - startT, 0), hence non-negative. -/
theorem c6_latency_observation (I : PromServerInterceptor) (rq : Bool)
    (reqPulled : List Nat) (body : BodyResult) (sc : ServicerContextState)
    (t0 t1 : Int) :
    (new_behavior I rq false reqPulled body sc t0 t1).events.countP
        Event.isLatencyObs =
      (if I.legacy then 1
        else if I.enable_handling_time_histogram then 1 else 0) ∧
    (I.legacy → Event.obs Hist.legacyLatency (max (t1 - t0) 0) ∈
      (new_behavior I rq false reqPulled body sc t0 t1).events) ∧
    (¬I.legacy → I.enable_handling_time_histogram →
      Event.obs Hist.handledHistogram (max (t1 - t0) 0) ∈
        (new_behavior I rq false reqPulled body sc t0 t1).events) ∧
    (∀ h v, Event.obs h v ∈
        (new_behavior I rq false reqPulled body sc t0 t1).events →
      v = max (t1 - t0) 0 ∧ 0 ≤ v) := by
  refine ⟨?_, ?_, ?_, ?_⟩
  · cases body with
    | ret resp =>
      rw [new_behavior_ret_nonstream]
      simp only [List.countP_append]
      rw [countP_preBodyEvents, countP_latencyEvents_obs]
      simp [isLatencyObs_inc, List.countP_cons]
    | raiseRpc e =>
      rw [new_behavior_raiseRpc]
      simp only [List.countP_append]
      rw [countP_preBodyEvents, countP_latencyEvents_obs]
      simp [isLatencyObs_inc, List.countP_cons]
    | raiseFault =>
      rw [new_behavior_raiseFault]
      simp only [List.countP_append]
      rw [countP_preBodyEvents, countP_latencyEvents_obs]
      simp [isLatencyObs_inc]
  · intro hl
    have hmem : Event.obs Hist.legacyLatency (max (t1 - t0) 0) ∈
        latencyEvents I false t0 t1 := by
      simp [latencyEvents, hl]
    cases body with
    | ret resp => rw [new_behavior_ret_nonstream]; simp; tauto
    | raiseRpc e => rw [new_behavior_raiseRpc]; simp; tauto
    | raiseFault => rw [new_behavior_raiseFault]; simp; tauto
  · intro hl hh
    have hmem : Event.obs Hist.handledHistogram (max (t1 - t0) 0) ∈
        latencyEvents I false t0 t1 := by
      simp only [latencyEvents, if_false]
      rw [if_neg (by simp), if_neg (by simpa using hl), if_pos hh]
      simp
    cases body with
    | ret resp => rw [new_behavior_ret_nonstream]; simp; tauto
    | raiseRpc e => rw [new_behavior_raiseRpc]; simp; tauto
    | raiseFault => rw [new_behavior_raiseFault]; simp; tauto
  · intro h v hv
    have hval : v = max (t1 - t0) 0 := by
      cases body with
      | ret resp =>
        rw [new_behavior_ret_nonstream] at hv
        simp only [List.mem_append, List.mem_cons] at hv
        rcases hv with (h1 | h1) | h1
        · exact absurd h1 (fun hh => no_obs_mem_preBodyEvents I rq reqPulled h v hh)
        · rcases h1 with h1 | h1
          · exact Event.noConfusion h1
          · simp at h1
        · exact obs_mem_latencyEvents I false t0 t1 h v h1
      | raiseRpc e =>
        rw [new_behavior_raiseRpc] at hv
        simp only [List.mem_append, List.mem_cons] at hv
        rcases hv with (h1 | h1) | h1
        · exact absurd h1 (fun hh => no_obs_mem_preBodyEvents I rq reqPulled h v hh)
        · rcases h1 with h1 | h1
          · exact Event.noConfusion h1
          · simp at h1
        · exact obs_mem_latencyEvents I false t0 t1 h v h1
      | raiseFault =>
        rw [new_behavior_raiseFault] at hv
        simp only [List.mem_append] at hv
        rcases hv with h1 | h1
        · exact absurd h1 (fun hh => no_obs_mem_preBodyEvents I rq reqPulled h v hh)
        · exact obs_mem_latencyEvents I false t0 t1 h v h1
    exact ⟨hval, hval ▸ le_max_right _ _⟩

/-- C6 witness: a concrete legacy unary call records its latency observation
with the clamped non-negative value. -/
theorem c6_witness :
    Event.obs Hist.legacyLatency (max ((5 : Int) - 0) 0) ∈
      (new_behavior { enable_handling_time_histogram := false, legacy := true }
        false false [] (.ret []) { client := "", code := none } 0 5).events ∧
    (0 : Int) ≤ max ((5 : Int) - 0) 0 := by
  have h := c6_latency_observation
    { enable_handling_time_histogram := false, legacy := true }
    false [] (.ret []) { client := "", code := none } 0 5
  exact ⟨h.2.1 rfl, (h.2.2.2 _ _ (h.2.1 rfl)).2⟩

/-- C7: for every call, a non-request-streaming call records exactly one
started increment (to the legacy or default counter per the mode flag) and it
is the first event, before the handler body; a request-streaming call records
zero started increments and instead the request adapter records one received
increment per request element actually delivered to the handler; the
pre-body events precede all other events of the call. -/
theorem c7_started_or_per_element_received (I : PromServerInterceptor)
    (rq ps : Bool) (reqPulled : List Nat) (body : BodyResult)
    (sc : ServicerContextState) (t0 t1 : Int) :
    (new_behavior I rq ps reqPulled body sc t0 t1).events.countP
        Event.isStartedInc = (if rq then 0 else 1) ∧
    (rq = false →
      (new_behavior I rq ps reqPulled body sc t0 t1).events.head? =
        some (Event.inc (startedCounter I))) ∧
    startedCounter I =
      (if I.legacy then Counter.startedLegacy else Counter.startedDefault) ∧
    (rq = true →
      (preBodyEvents I rq reqPulled).countP Event.isReceivedInc =
        reqPulled.length) ∧
    (new_behavior I rq ps reqPulled body sc t0 t1).events.take
        (preBodyEvents I rq reqPulled).length = preBodyEvents I rq reqPulled := by
  have hpre0 : ∀ xs : List Nat, (preBodyEvents I rq xs).countP Event.isStartedInc =
      (if rq then 0 else 1) := by
    intro xs
    rw [countP_preBodyEvents]
    cases rq <;>
      simp [isStartedInc_msgReceivedDefault, isStartedInc_msgSentDefault,
        isStartedInc_startedCounter]
  have hresp0 : ∀ xs : List Nat,
      (eventsOf (wrapResponse I (baseStream xs))).countP Event.isStartedInc = 0 := by
    intro xs
    rw [countP_wrapResponse]
    simp [isStartedInc_sentMetric, isStartedInc_msgReceivedDefault]
  refine ⟨?_, ?_, rfl, ?_, ?_⟩
  · cases body with
    | ret resp =>
      cases ps with
      | true =>
        rw [new_behavior_ret_stream]
        simp only [List.countP_append]
        rw [hpre0, hresp0,
          countP_latencyEvents_notObs _ _ _ _ _ isStartedInc_obs]
        cases rq <;> simp
      | false =>
        rw [new_behavior_ret_nonstream]
        simp only [List.countP_append, List.countP_cons, List.countP_nil]
        rw [hpre0, countP_latencyEvents_notObs _ _ _ _ _ isStartedInc_obs]
        cases rq <;> simp [isStartedInc_handledCounter]
    | raiseRpc e =>
      rw [new_behavior_raiseRpc]
      simp only [List.countP_append, List.countP_cons, List.countP_nil]
      rw [hpre0, countP_latencyEvents_notObs _ _ _ _ _ isStartedInc_obs]
      cases rq <;> simp [isStartedInc_handledCounter]
    | raiseFault =>
      rw [new_behavior_raiseFault]
      simp only [List.countP_append]
      rw [hpre0, countP_latencyEvents_notObs _ _ _ _ _ isStartedInc_obs]
      cases rq <;> simp
  · rintro rfl
    cases body with
    | ret resp =>
      cases ps with
      | true => rw [new_behavior_ret_stream]; simp [preBodyEvents]
      | false => rw [new_behavior_ret_nonstream]; simp [preBodyEvents]
    | raiseRpc e => rw [new_behavior_raiseRpc]; simp [preBodyEvents]
    | raiseFault => rw [new_behavior_raiseFault]; simp [preBodyEvents]
  · rintro rfl
    rw [countP_preBodyEvents]
    simp [isReceivedInc_msgReceivedDefault, isReceivedInc_msgSentDefault]
  · cases body with
    | ret resp =>
      cases ps with
      | true =>
        rw [new_behavior_ret_stream]
        rw [List.append_assoc, List.take_left]
      | false =>
        rw [new_behavior_ret_nonstream]
        rw [List.append_assoc, List.take_left]
    | raiseRpc e =>
      rw [new_behavior_raiseRpc]
      rw [List.append_assoc, List.take_left]
    | raiseFault =>
      rw [new_behavior_raiseFault]
      rw [List.take_left]

/-- C7 witness: a concrete request-streaming call delivering two elements
records zero started increments and two received increments. -/
theorem c7_witness :
    (new_behavior { enable_handling_time_histogram := false, legacy := false }
        true false [3, 4] (.ret []) { client := "", code := none } 0 0).events.countP
      Event.isStartedInc = 0 ∧
    (preBodyEvents { enable_handling_time_histogram := false, legacy := false }
        true [3, 4]).countP Event.isReceivedInc = 2 := by
  have h := c7_started_or_per_element_received
    { enable_handling_time_histogram := false, legacy := false }
    true false [3, 4] (.ret []) { client := "", code := none } 0 0
  exact ⟨h.1, h.2.2.2.1 rfl⟩

/-- C8: the outbound adapter of a response-streaming call interposes, for
each of the N response elements, its increments immediately before the
element is delivered to the external caller: exactly N sent increments, plus
N received increments in non-legacy mode and none in legacy mode, with the
elements themselves forwarded unchanged; for a server-streaming call (unary
request) these adapter events are, after the started increment, exactly the
events of the whole call. -/
theorem c8_response_stream_per_element (I : PromServerInterceptor)
    (resp : List Nat) (sc : ServicerContextState) (t0 t1 : Int) :
    wrapResponse I (baseStream resp) =
      resp.flatMap (fun m =>
        (if I.legacy then [Item.ev (Event.inc Counter.msgSentLegacy)]
          else [Item.ev (Event.inc Counter.msgReceivedDefault),
            Item.ev (Event.inc Counter.msgSentDefault)]) ++ [Item.deliver m]) ∧
    deliveredOf (wrapResponse I (baseStream resp)) = resp ∧
    (eventsOf (wrapResponse I (baseStream resp))).countP Event.isSentInc =
      resp.length ∧
    (eventsOf (wrapResponse I (baseStream resp))).countP Event.isReceivedInc =
      (if I.legacy then 0 else resp.length) ∧
    (new_behavior I false true [] (.ret resp) sc t0 t1).events =
      Event.inc (startedCounter I) ::
        eventsOf (wrapResponse I (baseStream resp)) := by
  refine ⟨?_, ?_, ?_, ?_, ?_⟩
  · by_cases hl : I.legacy
    · simp only [wrapResponse, sent_metric, hl, if_true]
      rw [wrap_single_baseStream]
      simp
    · simp only [wrapResponse, sent_metric, hl, Bool.false_eq_true, if_false]
      rw [wrap_wrap_baseStream]
      simp
  · unfold wrapResponse
    by_cases hl : I.legacy <;>
      simp [hl, deliveredOf_wrap, deliveredOf_baseStream]
  · rw [countP_wrapResponse]
    simp [isSentInc_sentMetric, isSentInc_msgReceivedDefault]
  · rw [countP_wrapResponse]
    by_cases hl : I.legacy <;>
      simp [hl, isReceivedInc_sentMetric, isReceivedInc_msgReceivedDefault]
  · rw [new_behavior_ret_stream]
    simp [preBodyEvents, latencyEvents]

/-- C9: for every non-None handler the shape selection of _wrap_rpc_behavior
is the exhaustive match over the four (request-streaming,
response-streaming) combinations: the built handler carries the original
handler's streaming flags (the factory used always matches the shape, so
there is no fallback shape), the wrapped entry point selected for that
shape, and the original request_deserializer and response_serializer
unchanged. -/
theorem c9_shape_selection_exhaustive (h : RpcMethodHandler a)
    (fn : a → Bool → Bool → b) :
    wrap_rpc_behavior (some h) fn =
      some { request_streaming := h.request_streaming,
             response_streaming := h.response_streaming,
             behavior :=
               fn (selected_behavior h) h.request_streaming h.response_streaming,
             request_deserializer := h.request_deserializer,
             response_serializer := h.response_serializer } := by
  obtain ⟨rq, ps, uu, us, su, ss, rd, rs⟩ := h
  cases rq <;> cases ps <;> rfl

end PyGrpcPrometheus
